import Mathlib

/-!
Shallow embedding of `main.py` from the `hf-model-to-gguf` repository: a
command-line orchestration script that resolves a model alias, fetches hub
metadata, conditionally downloads the weights, syncs the llama.cpp toolchain,
conditionally converts the weights to GGUF, and optionally runs the model.

Paths are modelled as strings; `os.path.join` on a relative second component
is string concatenation with a slash.  The filesystem is modelled as an
existence predicate `String → Bool`; the only in-script filesystem mutation is
`os.makedirs`.  Subprocess calls and directory creations are recorded as
effects; a raised exception is an `Except.error` / `Option.some` message.
-/

/-- Model of Python `sub in s` (substring containment): `leadsWith p l` is
true when `p` is an initial run of `l`. -/
def leadsWith : List Char → List Char → Bool
  | [], _ => true
  | _ :: _, [] => false
  | a :: as, b :: bs => a == b && leadsWith as bs

/-- True when `sub` occurs contiguously inside `s`. -/
def hasSub (sub : List Char) : List Char → Bool
  | [] => sub.isEmpty
  | b :: bs => leadsWith sub (b :: bs) || hasSub sub bs

/-- Python `sub in s` on strings. -/
def strContains (s sub : String) : Bool := hasSub sub.data s.data

/-- Model of Python `str.split(sep)` for a one-character separator: splits at
every occurrence of `sep`, keeping empty segments. -/
def splitChar (sep : Char) : List Char → List Char → List (List Char)
  | acc, [] => [acc.reverse]
  | acc, c :: cs =>
      if c == sep then acc.reverse :: splitChar sep [] cs
      else splitChar sep (c :: acc) cs

/-- Python `s.split(sep)` on strings, one-character separator. -/
def pySplit (s : String) (sep : Char) : List String :=
  (splitChar sep [] s.data).map List.asString

/-- Model of Python `str.upper()` restricted to ASCII input (the quantization
strings the script handles, e.g. "f16", "q4_0", are ASCII). -/
def pyUpper (s : String) : String := ⟨s.data.map Char.toUpper⟩

/-- Model of `os.path.join(a, b)` for a relative, nonempty `b` and an `a`
without a trailing slash — the only shape the script uses. -/
def osJoin (a b : String) : String := a ++ "/" ++ b

/-- Model of Python `dict.get(k)` on a small literal dict, represented as an
insertion-ordered association list. -/
def dictFind (tbl : List (String × String)) (k : String) : Option String :=
  (tbl.find? (fun p => p.1 == k)).map Prod.snd

/-- The static alias table `MODELS_ALIASES` of main.py (commented-out entries
omitted, as in the source). -/
def MODELS_ALIASES : List (String × String) :=
  [("mlx-deepseek-32b", "mlx-community/DeepSeek-R1-Distill-Qwen-32B"),
   ("llama-3b", "mlx-community/Llama-3.2-3B-Instruct")]

/-- `MODEL_NAME = MODELS_ALIASES.get(args.model, args.model)`: alias lookup
with verbatim fallback. -/
def MODEL_NAME (modelArg : String) : String :=
  (dictFind MODELS_ALIASES modelArg).getD modelArg

/-- `DOWNLOAD_DIR = os.path.join(SCRIPT_DIR, "models")`. -/
def DOWNLOAD_DIR (scriptDir : String) : String := osJoin scriptDir "models"

/-- `MODEL_SHORTNAME = MODEL_NAME.split("/")[-1]`. -/
def MODEL_SHORTNAME (modelName : String) : String :=
  (pySplit modelName '/').getLastD ""

/-- `SAVE_DIR = os.path.join(DOWNLOAD_DIR, MODEL_SHORTNAME)`. -/
def SAVE_DIR (scriptDir modelName : String) : String :=
  osJoin (DOWNLOAD_DIR scriptDir) (MODEL_SHORTNAME modelName)

/-- `LLAMA_CPP_DIR = os.path.join(SCRIPT_DIR, "llama.cpp")`. -/
def LLAMA_CPP_DIR (scriptDir : String) : String := osJoin scriptDir "llama.cpp"

/-- `GGUF_PATH = os.path.join(SAVE_DIR, f"…-{QUANTIZATION_TYPE.upper()}.gguf")`. -/
def GGUF_PATH (scriptDir modelName quant : String) : String :=
  osJoin (SAVE_DIR scriptDir modelName)
    (MODEL_SHORTNAME modelName ++ "-" ++ pyUpper quant ++ ".gguf")

/-- The `n_gpu_layers_mapping` dict of `run_model`, in insertion order (Python
dicts iterate in insertion order). -/
def n_gpu_layers_mapping : List (String × String) :=
  [("72B", "40"), ("32B", "60"), ("14B", "70"), ("12B", "70"),
   ("7B", "80"), ("3B", "90"), ("1B", "100")]

/-- `model_size = next((size for size in n_gpu_layers_mapping if size in
MODEL_NAME), None)`: first key (in insertion order) that is a substring of
the model name. -/
def model_size (modelName : String) : Option String :=
  (n_gpu_layers_mapping.map Prod.fst).find? (fun size => strContains modelName size)

/-- `n_gpu_layers = n_gpu_layers_mapping.get(model_size, "30")`; `None` is
never a key, so it falls to the default. -/
def n_gpu_layers (modelName : String) : String :=
  match model_size modelName with
  | none => "30"
  | some key => (dictFind n_gpu_layers_mapping key).getD "30"

/-- The parsed command-line arguments of `parse_args`. -/
structure Args where
  model : String
  skipDownload : Bool
  skipConversion : Bool
  runModel : Bool
  verbose : Bool
  deriving Repr, DecidableEq

/-- A well-formed hub configuration object, as `fetch_model_metadata` reads
it: `modelType` is the `model_type` attribute (`none` when absent, in which
case `getattr` yields "unknown"); `quantizationConfig` is the
`quantization_config` attribute (`none` when absent, in which case `getattr`
yields the empty dict), whose inner value is the result of looking up the key
"quant_method". -/
structure Config where
  modelType : Option String
  quantizationConfig : Option (Option String)
  deriving Repr, DecidableEq

/-- An observable action of the script: a directory creation
(`os.makedirs`) or a subprocess invocation (`subprocess.run` argv). -/
inductive Effect where
  | makedirs : String → Effect
  | run : List String → Effect
  deriving Repr, DecidableEq

/-- The external world an execution sees: which paths exist, and the result
of `AutoConfig.from_pretrained` (`none` models any exception inside the
`try` of `fetch_model_metadata`: network error, missing model, malformed
config). -/
structure World where
  pathExists : String → Bool
  hubConfig : Option Config

/-- Python truthiness test `not x` for the metadata values: falsy when `None`
or the empty string. -/
def pyFalsy : Option String → Bool
  | none => true
  | some s => s == ""

/-- `fetch_model_metadata`: on success returns
`(getattr(config, "model_type", "unknown"),
getattr(config, "quantization_config", \x7b\x7d).get("quant_method", "f16"))`;
on any exception returns `(None, None)`. -/
def fetch_model_metadata : Option Config → Option String × Option String
  | none => (none, none)
  | some c =>
      (some (c.modelType.getD "unknown"),
       some ((c.quantizationConfig.getD none).getD "f16"))

/-- The message of the `ValueError` raised when metadata retrieval fails. -/
def metadataErr : String :=
  "Failed to retrieve model metadata. Ensure the model exists on Hugging Face and has a valid config."

/-- `download_model`: when `--skip-download` is not given and `SAVE_DIR` does
not exist, create `SAVE_DIR` and invoke the `huggingface-cli download`
subprocess; otherwise do nothing (a skip message is printed). -/
def download_model (args : Args) (pathExists : String → Bool)
    (scriptDir modelName : String) : List Effect :=
  if !args.skipDownload && !pathExists (SAVE_DIR scriptDir modelName) then
    [Effect.makedirs (SAVE_DIR scriptDir modelName),
     Effect.run ["huggingface-cli", "download", modelName,
                 "--local-dir", SAVE_DIR scriptDir modelName, "--resume-download"]]
  else []

/-- `check_model_files`: `os.listdir(SAVE_DIR)` raises when the directory
does not exist; otherwise the function only prints. -/
def check_model_files (pathExists : String → Bool) (dir : String) :
    Except String (List Effect) :=
  if pathExists dir then Except.ok []
  else Except.error ("No such file or directory: " ++ dir)

/-- `update_llama_cpp`: clone the repository when `LLAMA_CPP_DIR` is absent,
pull otherwise, then unconditionally check out `master`. -/
def update_llama_cpp (pathExists : String → Bool) (scriptDir : String) :
    List Effect :=
  (if !pathExists (LLAMA_CPP_DIR scriptDir) then
    [Effect.run ["git", "clone", "https://github.com/ggerganov/llama.cpp",
                 LLAMA_CPP_DIR scriptDir]]
  else
    [Effect.run ["git", "-C", LLAMA_CPP_DIR scriptDir, "pull"]])
  ++ [Effect.run ["git", "-C", LLAMA_CPP_DIR scriptDir, "checkout", "master"]]

/-- The path of the converter script inside the toolchain directory. -/
def convert_script (scriptDir : String) : String :=
  osJoin (LLAMA_CPP_DIR scriptDir) "convert_hf_to_gguf.py"

/-- `convert_model`: raise `FileNotFoundError` when the converter script is
absent; otherwise invoke the converter subprocess when `--skip-conversion`
is not given and `GGUF_PATH` does not exist. -/
def convert_model (args : Args) (pathExists : String → Bool)
    (scriptDir modelName quant : String) : Except String (List Effect) :=
  if !pathExists (convert_script scriptDir) then
    Except.error ("Error: Could not find " ++ convert_script scriptDir ++
                  ". Please update llama.cpp repository.")
  else if !args.skipConversion && !pathExists (GGUF_PATH scriptDir modelName quant) then
    Except.ok [Effect.run ["python3", convert_script scriptDir,
                           SAVE_DIR scriptDir modelName, "--outtype", quant]]
  else Except.ok []

/-- `run_model`: return immediately when `--run-model` is not given; when the
GGUF artifact exists, invoke the inference binary with the GPU-layer
heuristic; otherwise raise `FileNotFoundError`. -/
def run_model (args : Args) (pathExists : String → Bool)
    (scriptDir modelName quant : String) : Except String (List Effect) :=
  if !args.runModel then Except.ok []
  else if pathExists (GGUF_PATH scriptDir modelName quant) then
    Except.ok [Effect.run
      [osJoin (LLAMA_CPP_DIR scriptDir) "build/bin/llama-cli",
       "-m", GGUF_PATH scriptDir modelName quant,
       "--n-gpu-layers", n_gpu_layers modelName,
       "--ctx-size", "8192",
       "-p", "Write a 1000-word story."]]
  else
    Except.error ("Error: GGUF model not found at " ++
                  GGUF_PATH scriptDir modelName quant ++
                  ". Ensure conversion was successful.")

/-- The whole script: module-level setup (alias resolution, path definitions,
`os.makedirs(DOWNLOAD_DIR)`, metadata fetch and its fatal gate), then the
`__main__` stages in order.  Returns the trace of the script's own effects
and `some message` when an exception terminates the process.  The only
in-script filesystem mutation is `os.makedirs(SAVE_DIR)` inside
`download_model`; effects of the external subprocesses on the filesystem are
outside the script and are not modelled. -/
def pipeline (args : Args) (scriptDir : String) (w : World) :
    List Effect × Option String :=
  let modelName := MODEL_NAME args.model
  let pre : List Effect := [Effect.makedirs (DOWNLOAD_DIR scriptDir)]
  let mq := fetch_model_metadata w.hubConfig
  if pyFalsy mq.1 || pyFalsy mq.2 then
    (pre, some metadataErr)
  else
    let quant := mq.2.getD ""
    let save := SAVE_DIR scriptDir modelName
    let fs0 := w.pathExists
    let dl := download_model args fs0 scriptDir modelName
    let fs1 := fun p => fs0 p || ((!args.skipDownload && !fs0 save) && p == save)
    match check_model_files fs1 save with
    | Except.error e => (pre ++ dl, some e)
    | Except.ok ck =>
      let ul := update_llama_cpp fs1 scriptDir
      match convert_model args fs1 scriptDir modelName quant with
      | Except.error e => (pre ++ dl ++ ck ++ ul, some e)
      | Except.ok cv =>
        match run_model args fs1 scriptDir modelName quant with
        | Except.error e => (pre ++ dl ++ ck ++ ul ++ cv, some e)
        | Except.ok rn => (pre ++ dl ++ ck ++ ul ++ cv ++ rn, none)

example : n_gpu_layers "mlx-community/DeepSeek-R1-Distill-Qwen-32B" = "60" := by decide
example : n_gpu_layers "foo" = "30" := by decide
example : n_gpu_layers "x-72B-32B" = "40" := by decide
example : MODEL_SHORTNAME "mlx-community/Llama-3.2-3B-Instruct" = "Llama-3.2-3B-Instruct" := by decide
example : pyUpper "q4_0" = "Q4_0" := by decide
example : MODEL_NAME "llama-3b" = "mlx-community/Llama-3.2-3B-Instruct" := by decide
example : MODEL_NAME "other/Model" = "other/Model" := by decide

/-- C1, as stated, is false: the substring search is first-match in the
table's insertion order, and "72B" precedes "32B"; a model name containing
both yields "40", not "60". -/
theorem C1_counterexample :
    strContains "mlx-community/Qwen-72B-32B" "32B" = true ∧
    n_gpu_layers "mlx-community/Qwen-72B-32B" ≠ "60" := by
  decide

/-- C1 (amended): the GPU-layer count is a first-match substring search of
the model name over the fixed table; a model name containing "32B" but not
the earlier key "72B" yields "60", and a model name containing no key of the
table yields the default "30". -/
theorem C1_gpu_layer_heuristic (m : String) :
    (strContains m "72B" = false → strContains m "32B" = true →
        n_gpu_layers m = "60")
    ∧ ((∀ k ∈ n_gpu_layers_mapping.map Prod.fst, strContains m k = false) →
        n_gpu_layers m = "30") := by
  constructor
  · intro h72 h32
    simp [n_gpu_layers, model_size, n_gpu_layers_mapping, List.find?, h72, h32,
      dictFind]
  · intro h
    have h72 := h "72B" (by simp [n_gpu_layers_mapping])
    have h32 := h "32B" (by simp [n_gpu_layers_mapping])
    have h14 := h "14B" (by simp [n_gpu_layers_mapping])
    have h12 := h "12B" (by simp [n_gpu_layers_mapping])
    have h7 := h "7B" (by simp [n_gpu_layers_mapping])
    have h3 := h "3B" (by simp [n_gpu_layers_mapping])
    have h1 := h "1B" (by simp [n_gpu_layers_mapping])
    simp [n_gpu_layers, model_size, n_gpu_layers_mapping, List.find?,
      h72, h32, h14, h12, h7, h3, h1]

/-- Witness for C1 at concrete inputs: a name containing "32B" and not "72B"
gets "60"; a name containing no table key gets "30". -/
theorem C1_witness :
    n_gpu_layers "mlx-community/DeepSeek-R1-Distill-Qwen-32B" = "60" ∧
    n_gpu_layers "tiny-model" = "30" :=
  ⟨(C1_gpu_layer_heuristic "mlx-community/DeepSeek-R1-Distill-Qwen-32B").1
      (by decide) (by decide),
   (C1_gpu_layer_heuristic "tiny-model").2 (by decide)⟩

/-- C2: alias resolution is a pure lookup-or-passthrough: when the argument
is a key of `MODELS_ALIASES` the resolved name is the table's value, and
otherwise the resolved name is the argument itself, verbatim, with no
validation. -/
theorem C2_alias_resolution (arg : String) :
    (∀ v, dictFind MODELS_ALIASES arg = some v → MODEL_NAME arg = v)
    ∧ (dictFind MODELS_ALIASES arg = none → MODEL_NAME arg = arg) := by
  unfold MODEL_NAME
  cases h : dictFind MODELS_ALIASES arg <;> simp [h]

/-- Witness for C2: the alias "mlx-deepseek-32b" resolves through the table;
an unaliased name passes through verbatim. -/
theorem C2_witness :
    MODEL_NAME "mlx-deepseek-32b" = "mlx-community/DeepSeek-R1-Distill-Qwen-32B"
    ∧ MODEL_NAME "some-org/Custom-Model-7B" = "some-org/Custom-Model-7B" :=
  ⟨(C2_alias_resolution "mlx-deepseek-32b").1 _ (by decide),
   (C2_alias_resolution "some-org/Custom-Model-7B").2 (by decide)⟩

/-- C3: metadata fetch extracts `quant_method` with default "f16" when the
config carries no `quantization_config`, and extracts `model_type`; when the
fetch fails (any exception: network error, missing model, malformed config),
the pipeline raises the `ValueError` and aborts with no stage effect beyond
the module-level `os.makedirs(DOWNLOAD_DIR)` — in particular no subprocess
of any later stage runs. -/
theorem C3_metadata_fetch_fatal (c : Config) (args : Args) (d : String)
    (w : World) (hw : w.hubConfig = none) :
    (c.quantizationConfig = none → (fetch_model_metadata (some c)).2 = some "f16")
    ∧ (fetch_model_metadata (some c)).1 = some (c.modelType.getD "unknown")
    ∧ (pipeline args d w).2 = some metadataErr
    ∧ (pipeline args d w).1 = [Effect.makedirs (DOWNLOAD_DIR d)]
    ∧ (∀ cmd, Effect.run cmd ∉ (pipeline args d w).1) := by
  refine ⟨?_, ?_, ?_, ?_, ?_⟩
  · intro hq; simp [fetch_model_metadata, hq]
  · simp [fetch_model_metadata]
  · simp [pipeline, fetch_model_metadata, hw, pyFalsy]
  · simp [pipeline, fetch_model_metadata, hw, pyFalsy]
  · intro cmd
    simp [pipeline, fetch_model_metadata, hw, pyFalsy]

/-- Witness for C3 at a concrete config, arguments, and a world whose hub
lookup fails. -/
theorem C3_witness :
    ((Config.mk (some "qwen2") none).quantizationConfig = none →
      (fetch_model_metadata (some (Config.mk (some "qwen2") none))).2 = some "f16")
    ∧ (fetch_model_metadata (some (Config.mk (some "qwen2") none))).1 =
        some ((some "qwen2").getD "unknown")
    ∧ (pipeline (Args.mk "llama-3b" false false false false) "/s"
        (World.mk (fun _ => false) none)).2 = some metadataErr
    ∧ (pipeline (Args.mk "llama-3b" false false false false) "/s"
        (World.mk (fun _ => false) none)).1 = [Effect.makedirs (DOWNLOAD_DIR "/s")]
    ∧ Effect.run ["huggingface-cli"] ∉
        (pipeline (Args.mk "llama-3b" false false false false) "/s"
          (World.mk (fun _ => false) none)).1 := by
  have h := C3_metadata_fetch_fatal (Config.mk (some "qwen2") none)
    (Args.mk "llama-3b" false false false false) "/s"
    (World.mk (fun _ => false) none) rfl
  exact ⟨fun _ => h.1 rfl, h.2.1, h.2.2.1, h.2.2.2.1, h.2.2.2.2 ["huggingface-cli"]⟩

/-- C4: the download subprocess is invoked if and only if `--skip-download`
is not set and the save directory does not already exist; in particular an
existing download directory makes the stage a no-op (idempotence by
directory-existence check). -/
theorem C4_download_iff (args : Args) (fs : String → Bool) (d m : String) :
    ((∃ cmd, Effect.run cmd ∈ download_model args fs d m) ↔
      (args.skipDownload = false ∧ fs (SAVE_DIR d m) = false))
    ∧ (fs (SAVE_DIR d m) = true → download_model args fs d m = []) := by
  unfold download_model
  cases hs : args.skipDownload <;> cases he : fs (SAVE_DIR d m) <;> simp

/-- Witness for C4: with fresh filesystem and no skip flag the download
command is emitted; with the directory present the stage is empty. -/
theorem C4_witness :
    (∃ cmd, Effect.run cmd ∈
      download_model (Args.mk "m" false false false false) (fun _ => false) "/s" "org/m")
    ∧ download_model (Args.mk "m" false false false false) (fun _ => true) "/s" "org/m" = [] :=
  ⟨(C4_download_iff (Args.mk "m" false false false false) (fun _ => false) "/s" "org/m").1.mpr
      ⟨rfl, rfl⟩,
   (C4_download_iff (Args.mk "m" false false false false) (fun _ => true) "/s" "org/m").2 rfl⟩

/-- C5: a missing converter script makes `convert_model` raise the
`FileNotFoundError`; with the script present, the converter subprocess is
invoked if and only if `--skip-conversion` is not set and the GGUF artifact
does not already exist. -/
theorem C5_convert_model (args : Args) (fs : String → Bool) (d m q : String) :
    (fs (convert_script d) = false →
      convert_model args fs d m q =
        Except.error ("Error: Could not find " ++ convert_script d ++
          ". Please update llama.cpp repository."))
    ∧ (fs (convert_script d) = true →
      convert_model args fs d m q =
        Except.ok (if args.skipConversion = false ∧ fs (GGUF_PATH d m q) = false
          then [Effect.run ["python3", convert_script d, SAVE_DIR d m, "--outtype", q]]
          else [])) := by
  constructor
  · intro h; simp [convert_model, h]
  · intro h
    cases hc : args.skipConversion <;> cases hg : fs (GGUF_PATH d m q) <;>
      simp [convert_model, h, hc, hg]

/-- Witness for C5: a missing script raises even though nothing else blocks
conversion; with the script present and the artifact absent the converter
command is emitted. -/
theorem C5_witness :
    convert_model (Args.mk "m" false false false false) (fun _ => false) "/s" "org/m" "f16" =
      Except.error ("Error: Could not find " ++ convert_script "/s" ++
        ". Please update llama.cpp repository.")
    ∧ convert_model (Args.mk "m" false false false false)
        (fun p => p == convert_script "/s") "/s" "org/m" "f16" =
      Except.ok [Effect.run ["python3", convert_script "/s", SAVE_DIR "/s" "org/m",
        "--outtype", "f16"]] := by
  have h1 := (C5_convert_model (Args.mk "m" false false false false)
    (fun _ => false) "/s" "org/m" "f16").1 rfl
  have h2 := (C5_convert_model (Args.mk "m" false false false false)
    (fun p => p == convert_script "/s") "/s" "org/m" "f16").2 (by simp)
  have hcond : (GGUF_PATH "/s" "org/m" "f16" == convert_script "/s") = false := by
    decide
  exact ⟨h1, by rw [h2, if_pos ⟨rfl, hcond⟩]⟩

/-- C6: when `--run-model` is set and the GGUF artifact is absent,
`run_model` raises the `FileNotFoundError` with no recovery path. -/
theorem C6_run_missing_artifact (args : Args) (fs : String → Bool)
    (d m q : String) (h1 : args.runModel = true)
    (h2 : fs (GGUF_PATH d m q) = false) :
    run_model args fs d m q =
      Except.error ("Error: GGUF model not found at " ++ GGUF_PATH d m q ++
        ". Ensure conversion was successful.") := by
  simp [run_model, h1, h2]

/-- Witness for C6 at a concrete run request on an empty filesystem. -/
theorem C6_witness :
    run_model (Args.mk "m" false false true false) (fun _ => false) "/s" "org/m" "f16" =
      Except.error ("Error: GGUF model not found at " ++ GGUF_PATH "/s" "org/m" "f16" ++
        ". Ensure conversion was successful.") :=
  C6_run_missing_artifact (Args.mk "m" false false true false) (fun _ => false)
    "/s" "org/m" "f16" rfl rfl

/-- C7, as stated, is false: the GGUF artifact path embeds the quantization
type fetched from the hub, so two executions with the same model name and
script directory but different hub metadata construct different GGUF paths
(and different run-stage commands). -/
theorem C7_counterexample :
    GGUF_PATH "/s" "org/m" "f16" ≠ GGUF_PATH "/s" "org/m" "q4_0" ∧
    (pipeline (Args.mk "org/m" false false true false) "/s"
        (World.mk (fun _ => true) (some (Config.mk (some "llama") (some (some "f16")))))).1 ≠
    (pipeline (Args.mk "org/m" false false true false) "/s"
        (World.mk (fun _ => true) (some (Config.mk (some "llama") (some (some "q4_0")))))).1 := by
  decide

/-- C7 (amended): the download, save, and toolchain directories are pure
deterministic functions of the model name and script directory alone; the
GGUF artifact path is a pure deterministic function of the model name, the
script directory, and the fetched quantization type, of the shape
`<save-dir>/<model-shortname>-<QUANT-uppercased>.gguf` where the model
shortname is the last slash-separated segment of the model name. -/
theorem C7_path_determinism (d1 d2 m1 m2 q1 q2 : String)
    (hd : d1 = d2) (hm : m1 = m2) :
    DOWNLOAD_DIR d1 = DOWNLOAD_DIR d2
    ∧ SAVE_DIR d1 m1 = SAVE_DIR d2 m2
    ∧ LLAMA_CPP_DIR d1 = LLAMA_CPP_DIR d2
    ∧ (q1 = q2 → GGUF_PATH d1 m1 q1 = GGUF_PATH d2 m2 q2)
    ∧ MODEL_SHORTNAME m1 = (pySplit m1 '/').getLastD ""
    ∧ GGUF_PATH d1 m1 q1 =
        osJoin (SAVE_DIR d1 m1) (MODEL_SHORTNAME m1 ++ "-" ++ pyUpper q1 ++ ".gguf") := by
  subst hd; subst hm
  exact ⟨rfl, rfl, rfl, fun hq => by rw [hq], rfl, rfl⟩

/-- Witness for C7 (amended) at concrete equal inputs. -/
theorem C7_witness :
    DOWNLOAD_DIR "/s" = DOWNLOAD_DIR "/s"
    ∧ SAVE_DIR "/s" "org/m" = SAVE_DIR "/s" "org/m"
    ∧ LLAMA_CPP_DIR "/s" = LLAMA_CPP_DIR "/s"
    ∧ ( "f16" = "f16" → GGUF_PATH "/s" "org/m" "f16" = GGUF_PATH "/s" "org/m" "f16")
    ∧ MODEL_SHORTNAME "org/m" = (pySplit "org/m" '/').getLastD ""
    ∧ GGUF_PATH "/s" "org/m" "f16" =
        osJoin (SAVE_DIR "/s" "org/m") (MODEL_SHORTNAME "org/m" ++ "-" ++ pyUpper "f16" ++ ".gguf") :=
  C7_path_determinism "/s" "/s" "org/m" "org/m" "f16" "f16" rfl rfl

/-- C8: the converter-script existence check precedes the skip conditions:
for every flag combination and filesystem, a missing converter script makes
`convert_model` raise, even when `--skip-conversion` is set or the GGUF
artifact already exists. -/
theorem C8_script_check_first (args : Args) (fs : String → Bool)
    (d m q : String) (h : fs (convert_script d) = false) :
    convert_model args fs d m q =
      Except.error ("Error: Could not find " ++ convert_script d ++
        ". Please update llama.cpp repository.") := by
  simp [convert_model, h]

/-- Witness for C8: the skip flag is set and the GGUF artifact exists, yet
the missing script still raises. -/
theorem C8_witness :
    convert_model (Args.mk "m" false true false false)
      (fun p => !(p == convert_script "/s")) "/s" "org/m" "f16" =
      Except.error ("Error: Could not find " ++ convert_script "/s" ++
        ". Please update llama.cpp repository.") :=
  C8_script_check_first (Args.mk "m" false true false false)
    (fun p => !(p == convert_script "/s")) "/s" "org/m" "f16" (by decide)

/-- C9: when `--run-model` is not set, `run_model` returns immediately with
no effect and no error, for every filesystem — in particular when the GGUF
artifact is absent. -/
theorem C9_run_not_requested (args : Args) (fs : String → Bool)
    (d m q : String) (h : args.runModel = false) :
    run_model args fs d m q = Except.ok [] := by
  simp [run_model, h]

/-- Witness for C9: flag unset and artifact absent, the stage completes
normally. -/
theorem C9_witness :
    run_model (Args.mk "m" false false false false) (fun _ => false) "/s" "org/m" "f16" =
      Except.ok [] :=
  C9_run_not_requested (Args.mk "m" false false false false) (fun _ => false)
    "/s" "org/m" "f16" rfl

/-- A character list is a fixpoint of uppercasing exactly when every
character is. -/
theorem map_toUpper_fix_iff (l : List Char) :
    l.map Char.toUpper = l ↔ ∀ c ∈ l, Char.toUpper c = c := by
  induction l with
  | nil => simp
  | cons a as ih => simp [ih]

/-- Uppercasing changes a string exactly when some character of it is not
already uppercase. -/
theorem pyUpper_ne_self_iff (q : String) :
    pyUpper q ≠ q ↔ ∃ c ∈ q.data, Char.toUpper c ≠ c := by
  have hbase : pyUpper q = q ↔ ∀ c ∈ q.data, Char.toUpper c = c := by
    cases q with
    | mk data => simpa [pyUpper, String.ext_iff] using map_toUpper_fix_iff data
  simp only [ne_eq, hbase]
  push_neg
  rfl

/-- C10: the GGUF filename embeds the quantization type uppercased, while
the converter subprocess receives the quantization type verbatim as the
`--outtype` argument; the two uses differ exactly when the quantization
string is not already uppercase. -/
theorem C10_quant_casing (args : Args) (fs : String → Bool) (d m q : String)
    (hs : fs (convert_script d) = true) (hc : args.skipConversion = false)
    (hg : fs (GGUF_PATH d m q) = false) :
    GGUF_PATH d m q =
      osJoin (SAVE_DIR d m) (MODEL_SHORTNAME m ++ "-" ++ pyUpper q ++ ".gguf")
    ∧ convert_model args fs d m q =
        Except.ok [Effect.run ["python3", convert_script d, SAVE_DIR d m,
          "--outtype", q]]
    ∧ (pyUpper q ≠ q ↔ ∃ c ∈ q.data, Char.toUpper c ≠ c) := by
  refine ⟨rfl, ?_, pyUpper_ne_self_iff q⟩
  simp [convert_model, hs, hc, hg]

/-- Witness for C10 at the quantization string "f16", whose two uses differ. -/
theorem C10_witness :
    GGUF_PATH "/s" "org/m" "f16" =
      osJoin (SAVE_DIR "/s" "org/m") (MODEL_SHORTNAME "org/m" ++ "-" ++ pyUpper "f16" ++ ".gguf")
    ∧ convert_model (Args.mk "m" false false false false)
        (fun p => p == convert_script "/s") "/s" "org/m" "f16" =
        Except.ok [Effect.run ["python3", convert_script "/s", SAVE_DIR "/s" "org/m",
          "--outtype", "f16"]]
    ∧ (pyUpper "f16" ≠ "f16" ↔ ∃ c ∈ String.data "f16", Char.toUpper c ≠ c) :=
  C10_quant_casing (Args.mk "m" false false false false)
    (fun p => p == convert_script "/s") "/s" "org/m" "f16"
    (by decide) rfl (by decide)
